import Mathlib

/-!
# Compaq Armada backlight control (`bcklght.c`)

A shallow embedding of `src/bcklght.c` and theorems about it.

Conventions of the embedding.

* The two port primitives `outb` / `inb` are declared in the source with the
  parameter types `uint16_t` (port) and `uint8_t` (value); the machine
  instruction behind them is not part of the program.  The embedding therefore
  runs every function against a `Backend`: a device state with one operation per
  instruction.  The conversions to `uint16_t` / `uint8_t` made at each call are
  explicit reductions modulo `2^16` / `2^8`.
* C `int` has 32 bits.  Values of type `int` are integers; every `int` expression
  of the program stays far inside the 32-bit range (the base address is at most
  `0xFFFF`, a brightness at most `127`) except `8*atoi(argv[1])`, whose product is
  reduced to 32 bits in two's complement (`int32`), which is what the compiled
  multiplication yields when the product leaves the range of `int`.
* `atoi` is a C library function, not code of this program: `main` takes it as a
  parameter.
* The operands of `(in_idx(REG_LDN_BASEH)<<8) + in_idx(REG_LDN_BASEL)` are
  evaluated in the order in which they are written.
* `DEBUG` is not defined: the two diagnostic `fprintf` calls of `backlight_open`
  are not part of the build that is modelled.
* `argv` is the program name followed by the list of arguments, so `argc >= 1`.
-/

namespace Bcklght

/-! ## Port operations and backends -/

/-- One executed port instruction: `out dx, al` or `in al, dx`, with the port and
the byte that went over the bus. -/
inductive PortOp where
  | outb (port value : Nat)
  | inb (port value : Nat)
  deriving DecidableEq, Repr

/-- A device behind the port instructions: `write s port value` is the state after
`out`, `read s port` the byte delivered by `in` and the state after it. -/
structure Backend (σ : Type) where
  write : σ → Nat → Nat → σ
  read : σ → Nat → Nat × σ

/-- Conversion of an `int` to `uint16_t`. -/
def uint16_t (x : Int) : Nat := (x % 65536).toNat

/-- Conversion of an `int` to `uint8_t`. -/
def uint8_t (x : Int) : Nat := (x % 256).toNat

/-- The source's `outb(uint16_t port_, uint8_t value_)`: `out dx, al`. -/
def outb {σ : Type} (B : Backend σ) (s : σ) (port_ value_ : Int) : σ :=
  B.write s (uint16_t port_) (uint8_t value_)

/-- The source's `uint8_t inb(uint16_t port_)`: `in al, dx`. -/
def inb {σ : Type} (B : Backend σ) (s : σ) (port_ : Int) : Nat × σ :=
  ((B.read s (uint16_t port_)).1 % 256, (B.read s (uint16_t port_)).2)

/-! ## Constants of the source -/

def INDEX_PORT : Int := 0xe0
def DATA_PORT : Int := INDEX_PORT + 1
def CONF_START : Int := 0x55
def CONF_END : Int := 0xAA
def REG_LOGDN : Int := 0x07
def REG_CHIP_ID : Int := 0x20
def REG_LDN_ACT : Int := 0x30
def REG_LDN_BASEH : Int := 0x60
def REG_LDN_BASEL : Int := 0x61
def LOGICAL_DEVICE_MAILBOXES : Int := 0x09
def MBX_PWM0 : Int := 0x92
def MBX_PWM1 : Int := 0x93

/-! ## The program -/

/-- The source's `clamp`. -/
def clamp (value min max : Int) : Int :=
  if value < min then min
  else if value > max then max
  else value

/-- The 32-bit two's complement `int` that an integer reduces to. -/
def int32 (x : Int) : Int := (x + 2147483648) % 4294967296 - 2147483648

/-- C `x << k` on an `int` with non-negative `x`. -/
def shl (x : Int) (k : Nat) : Int := x * 2 ^ k

/-- The source's `out_idx`. -/
def out_idx {σ : Type} (B : Backend σ) (s : σ) (reg val : Int) : σ :=
  outb B (outb B s INDEX_PORT reg) DATA_PORT val

/-- The source's `in_idx`; the result has type `unsigned int`. -/
def in_idx {σ : Type} (B : Backend σ) (s : σ) (reg : Int) : Nat × σ :=
  inb B (outb B s INDEX_PORT reg) DATA_PORT

/-- What the program wrote to a stream. -/
inductive Message where
  /-- The line written to `stderr` for an unknown chip id `id`. -/
  | unknown_chip_id (id : Int)
  /-- The usage text written to `stderr` by `print_help(progname)`. -/
  | help (progname : String)
  /-- The line written to `stdout` by `printf` with format `%d` for `n`. -/
  | decimal (n : Int)
  deriving DecidableEq, Repr

/-- A call of `exit`: what was written to `stderr` before it, and its argument. -/
structure Exited where
  stderr : Message
  status : Int
  deriving DecidableEq, Repr

/-- The source's `backlight_open`: the base address, or the `exit(-1)` taken on an
unknown chip id; in both cases with the device state it leaves. -/
def backlight_open {σ : Type} (B : Backend σ) (s : σ) : Except Exited Int × σ :=
  let s1 := outb B s INDEX_PORT CONF_START
  let r := in_idx B s1 REG_CHIP_ID
  let id : Int := r.1
  if id ≠ 0xa ∧ id ≠ 0xb then
    (Except.error ⟨Message.unknown_chip_id id, -1⟩, r.2)
  else
    let s3 := out_idx B r.2 REG_LOGDN LOGICAL_DEVICE_MAILBOXES
    let h := in_idx B s3 REG_LDN_BASEH
    let l := in_idx B h.2 REG_LDN_BASEL
    (Except.ok (((h.1 <<< 8) + l.1 : Nat) : Int), l.2)

/-- The source's `backlight_close`; `bl_addr` is not used. -/
def backlight_close {σ : Type} (B : Backend σ) (s : σ) (_bl_addr : Int) : σ :=
  outb B s INDEX_PORT CONF_END

/-- The source's `backlight_get_brightness`. -/
def backlight_get_brightness {σ : Type} (B : Backend σ) (s : σ) (bl_addr : Int) :
    Int × σ :=
  let s1 := outb B s bl_addr MBX_PWM1
  let r := inb B s1 (bl_addr + 1)
  (((r.1 >>> 1 : Nat) : Int), r.2)

/-- The source's `backlight_set_brightness`. -/
def backlight_set_brightness {σ : Type} (B : Backend σ) (s : σ)
    (bl_addr new_brightness : Int) : σ :=
  outb B s (bl_addr + 1) (shl (clamp new_brightness 0 63) 1)

/-- The source's `help_requested`, on `argv[0..argc-1]`. -/
def help_requested (argc : Int) (argv : List String) : Bool :=
  if argv.any (fun a => a == "--help") then true else decide (argc > 2)

/-- A finished run of `main`: exit status (the argument of `exit`, or the value
returned), what went to `stdout` and `stderr`, and the device state. -/
structure Run (σ : Type) where
  status : Int
  stdout : List Message
  stderr : List Message
  dev : σ

/-- The source's `main`, for `argv = progname :: args`. -/
def main {σ : Type} (atoi : String → Int) (B : Backend σ) (s : σ)
    (progname : String) (args : List String) : Run σ :=
  let argc : Int := (progname :: args).length
  if help_requested argc (progname :: args) then
    { status := 0, stdout := [], stderr := [Message.help progname], dev := s }
  else
    match backlight_open B s with
    | (Except.error e, s1) =>
        { status := e.status, stdout := [], stderr := [e.stderr], dev := s1 }
    | (Except.ok bl_addr, s1) =>
        let g := backlight_get_brightness B s1 bl_addr
        let current_brightness := g.1
        match args with
        | [] =>
            { status := 0
              stdout := [Message.decimal ((current_brightness + 1).tdiv 8)]
              stderr := []
              dev := backlight_close B g.2 bl_addr }
        | a :: _ =>
            let s3 :=
              if a == "+" then
                backlight_set_brightness B g.2 bl_addr (current_brightness + 8)
              else if a == "-" then
                backlight_set_brightness B g.2 bl_addr (current_brightness - 8)
              else
                backlight_set_brightness B g.2 bl_addr (int32 (8 * atoi a))
            { status := 0, stdout := [], stderr := [],
              dev := backlight_close B s3 bl_addr }

/-! ## Backends used by the theorems -/

/-- A backend that ignores writes and answers the reads from a list of bytes, in
order (`0` once the list is used up). -/
def feed : Backend (List (Fin 256)) where
  write := fun s _ _ => s
  read := fun s _ => (((s.head?.getD 0 : Fin 256) : Nat), s.tail)

/-- Any backend, with the sequence of executed port instructions recorded. -/
def logged {σ : Type} (B : Backend σ) : Backend (σ × List PortOp) where
  write := fun s p v => (B.write s.1 p v, s.2 ++ [PortOp.outb p v])
  read := fun s p => ((B.read s.1 p).1, ((B.read s.1 p).2, s.2 ++ [PortOp.inb p (B.read s.1 p).1]))

/-- A backend in which a byte written to a port is the byte later read from it. -/
def ram : Backend (Nat → Nat) where
  write := fun m p v => fun q => if q = p then v else m q
  read := fun m p => (m p, m)

/-- The two configuration states of the chip. -/
inductive Mode where
  | NORMAL
  | CONFIG
  deriving DecidableEq, Repr

/-- The two-state model on a port trace: `0x55` written to `0xE0` enters `CONFIG`,
`0xAA` written to `0xE0` enters `NORMAL`, nothing else changes the state. -/
def mode_step (m : Mode) (op : PortOp) : Mode :=
  match op with
  | PortOp.outb p v =>
      if p = 0xE0 ∧ v = 0x55 then Mode.CONFIG
      else if p = 0xE0 ∧ v = 0xAA then Mode.NORMAL
      else m
  | PortOp.inb _ _ => m

/-- The state of the two-state model after a trace, from state `m`. -/
def mode_after (m : Mode) (t : List PortOp) : Mode := t.foldl mode_step m

/-- Modelled from the spec: the simulated chip behind the index/data port pair
(sections 4.2, 4.3 and 8; the source has no simulator).  It has the mode, the
index latched by the last index write, the global configuration registers (below
`0x30`, the logical-device-number register `0x07` and the chip id register `0x20`
among them), the registers from `0x30` on of every logical device, and a byte
store for every other port. -/
structure Chip where
  mode : Mode
  index : Nat
  glob : Nat → Nat
  ldev : Nat → Nat → Nat
  port : Nat → Nat

/-- Modelled from the spec: the configuration register selected by index `i`; from
`0x30` on it belongs to the logical device selected by register `0x07`. -/
def Chip.reg (c : Chip) (i : Nat) : Nat :=
  if i < 0x30 then c.glob i else c.ldev (c.glob 0x07) i

/-- Modelled from the spec: storing `v` in the configuration register selected by
index `i`. -/
def Chip.set_reg (c : Chip) (i v : Nat) : Chip :=
  if i < 0x30 then
    { c with glob := fun r => if r = i then v else c.glob r }
  else
    { c with ldev := fun d r => if d = c.glob 0x07 ∧ r = i then v else c.ldev d r }

/-- Modelled from the spec: the simulated chip as a backend.  In `NORMAL` mode only
the unlock byte `0x55` on the index port is obeyed; in `CONFIG` mode the lock byte
`0xAA` on the index port returns to `NORMAL`, any other byte on the index port is
latched as the index, and the data port reads or writes the selected register. -/
def chip : Backend Chip where
  write := fun c p v =>
    if p = 0xE0 then
      match c.mode with
      | Mode.NORMAL => if v = 0x55 then { c with mode := Mode.CONFIG } else c
      | Mode.CONFIG =>
          if v = 0xAA then { c with mode := Mode.NORMAL } else { c with index := v }
    else if p = 0xE1 then
      match c.mode with
      | Mode.NORMAL => c
      | Mode.CONFIG => c.set_reg c.index v
    else
      { c with port := fun q => if q = p then v else c.port q }
  read := fun c p =>
    if p = 0xE0 then
      match c.mode with
      | Mode.NORMAL => (0xFF, c)
      | Mode.CONFIG => (c.index, c)
    else if p = 0xE1 then
      match c.mode with
      | Mode.NORMAL => (0xFF, c)
      | Mode.CONFIG => (c.reg c.index, c)
    else
      (c.port p, c)

/-- The digits of the C library's `atoi`: the value of the longest decimal prefix,
continuing from `acc`. -/
def atoi_digits (acc : Int) : List Char → Int
  | [] => acc
  | c :: cs =>
      if c.isDigit then atoi_digits (acc * 10 + ((c.toNat - 48 : Nat) : Int)) cs
      else acc

/-- The C library's `atoi` for values in the range of `int`: white space is
skipped, then an optional sign, then the longest run of decimal digits. -/
def libc_atoi (s : String) : Int :=
  match s.toList.dropWhile (fun c => c.toNat = 32 ∨ (9 ≤ c.toNat ∧ c.toNat ≤ 13)) with
  | [] => 0
  | c :: cs =>
      if c = '-' then - atoi_digits 0 cs
      else if c = '+' then atoi_digits 0 cs
      else atoi_digits 0 (c :: cs)

/-! ## Conversions at the constants -/

theorem uint16_t_INDEX_PORT : uint16_t INDEX_PORT = 0xE0 := by decide
theorem uint16_t_DATA_PORT : uint16_t DATA_PORT = 0xE1 := by decide
theorem uint8_t_CONF_START : uint8_t CONF_START = 0x55 := by decide
theorem uint8_t_CONF_END : uint8_t CONF_END = 0xAA := by decide
theorem uint8_t_REG_LOGDN : uint8_t REG_LOGDN = 0x07 := by decide
theorem uint8_t_REG_CHIP_ID : uint8_t REG_CHIP_ID = 0x20 := by decide
theorem uint8_t_REG_LDN_BASEH : uint8_t REG_LDN_BASEH = 0x60 := by decide
theorem uint8_t_REG_LDN_BASEL : uint8_t REG_LDN_BASEL = 0x61 := by decide
theorem uint8_t_LOGICAL_DEVICE_MAILBOXES : uint8_t LOGICAL_DEVICE_MAILBOXES = 0x09 := by decide
theorem uint8_t_MBX_PWM1 : uint8_t MBX_PWM1 = 0x93 := by decide

theorem uint16_t_lt (x : Int) : uint16_t x < 65536 := by
  unfold uint16_t; omega

theorem uint16_t_succ_ne (x : Int) : uint16_t (x + 1) ≠ uint16_t x := by
  unfold uint16_t; omega

theorem clamp_range (L : Int) : 0 ≤ clamp L 0 63 ∧ clamp L 0 63 ≤ 63 := by
  unfold clamp
  split_ifs
  all_goals omega

theorem clamp_of_mem (L : Int) (h0 : 0 ≤ L) (h1 : L ≤ 63) : clamp L 0 63 = L := by
  unfold clamp
  split_ifs
  all_goals omega

theorem uint8_t_shl_clamp (L : Int) :
    uint8_t (shl (clamp L 0 63) 1) = (2 * clamp L 0 63).toNat := by
  have h := clamp_range L
  unfold uint8_t shl
  omega

/-! ## Theorems -/

/-- C8: `clamp(L, 0, 63)` lies in `[0, 63]` for every integer `L`, equals `L` when
`0 <= L <= 63`, is `0` for every `L < 0` and `63` for every `L > 63`. -/
theorem clamp_0_63 (L : Int) :
    (0 ≤ clamp L 0 63 ∧ clamp L 0 63 ≤ 63) ∧
    (0 ≤ L → L ≤ 63 → clamp L 0 63 = L) ∧
    (L < 0 → clamp L 0 63 = 0) ∧
    (63 < L → clamp L 0 63 = 63) := by
  unfold clamp
  refine ⟨?_, ?_, ?_, ?_⟩
  · split_ifs
    all_goals omega
  · intro h0 h1
    split_ifs
    all_goals omega
  · intro h
    split_ifs
    all_goals omega
  · intro h
    split_ifs
    all_goals omega

theorem clamp_0_63_witness :
    clamp 40 0 63 = 40 ∧ clamp (-8) 0 63 = 0 ∧ clamp 71 0 63 = 63 :=
  ⟨(clamp_0_63 40).2.1 (by decide) (by decide),
   (clamp_0_63 (-8)).2.2.1 (by decide),
   (clamp_0_63 71).2.2.2 (by decide)⟩

/-- C1: over the backend in which a byte written to a port is the byte later read
from it, for every handle `h` and every level `L` with `0 <= L <= 63`,
`backlight_set_brightness(h, L)` followed by `backlight_get_brightness(h)` returns
exactly `L`; the getter's select write of `0x93` goes to another port than the
data port and leaves the stored byte `2*L` in place. -/
theorem set_get_roundtrip (m : Nat → Nat) (h L : Int) (h0 : 0 ≤ L) (h1 : L ≤ 63) :
    (backlight_get_brightness ram (backlight_set_brightness ram m h L) h).1 = L ∧
    ((backlight_get_brightness ram (backlight_set_brightness ram m h L) h).2
        (uint16_t (h + 1)) : Int) = 2 * L ∧
    (backlight_get_brightness ram (backlight_set_brightness ram m h L) h).2
        (uint16_t h) = 0x93 ∧
    uint16_t h ≠ uint16_t (h + 1) := by
  have hc : clamp L 0 63 = L := clamp_of_mem L h0 h1
  have hne : uint16_t (h + 1) ≠ uint16_t h := uint16_t_succ_ne h
  have hv : uint8_t (shl L 1) = (2 * L).toNat := by
    have := uint8_t_shl_clamp L
    rwa [hc] at this
  simp only [backlight_get_brightness, backlight_set_brightness, outb, inb, ram, hc, hv,
    uint8_t_MBX_PWM1, if_neg hne, if_true, if_pos, Nat.shiftRight_eq_div_pow]
  refine ⟨?_, ?_, ?_, fun e => hne e.symm⟩
  · omega
  · omega
  · simp

theorem set_get_roundtrip_witness :
    (backlight_get_brightness ram (backlight_set_brightness ram (fun _ => 0) 0x400 40)
      0x400).1 = 40 :=
  (set_get_roundtrip (fun _ => 0) 0x400 40 (by decide) (by decide)).1

/-- C2 (counterexample): with the byte `0xFF` on the data port the getter returns
`127`, which is not in `[0, 63]`. -/
theorem get_brightness_exceeds_63 :
    (backlight_get_brightness (logged feed) ([0xFF], []) 0x400).1 = 127 ∧
    ¬ (backlight_get_brightness (logged feed) ([0xFF], []) 0x400).1 ≤ 63 := by
  decide

/-- C2 (amended): for every handle and every byte `b` delivered by the data port,
`backlight_get_brightness` writes `0x93` to port `handle`, reads port `handle+1`
(both as 16-bit port numbers) and returns `b >> 1`, which lies in `[0, 127]`, and
lies in `[0, 63]` exactly when `b < 128`. -/
theorem get_brightness_spec (h : Int) (b : Fin 256) (rest : List (Fin 256))
    (t : List PortOp) :
    backlight_get_brightness (logged feed) (b :: rest, t) h =
      (((b.val / 2 : Nat) : Int),
        (rest, t ++ [PortOp.outb (uint16_t h) 0x93, PortOp.inb (uint16_t (h + 1)) b.val])) ∧
    (0 ≤ ((b.val / 2 : Nat) : Int) ∧ ((b.val / 2 : Nat) : Int) ≤ 127) ∧
    (((b.val / 2 : Nat) : Int) ≤ 63 ↔ b.val < 128) := by
  have hb : b.val < 256 := b.isLt
  refine ⟨?_, ?_, ?_⟩
  · simp [backlight_get_brightness, outb, inb, logged, feed, uint8_t_MBX_PWM1,
      Nat.shiftRight_eq_div_pow, Nat.mod_eq_of_lt hb]
  · omega
  · omega

/-- C4: `backlight_open` fails if and only if the byte read for the chip id
register `0x20` is neither `0x0A` nor `0x0B`.  On failure it exits with the
non-zero status `-1` and its port trace is exactly write(0xE0, 0x55),
write(0xE0, 0x20), read(0xE1); `main` then stops with that status and that trace,
nothing following the id read.  Chip id `0x00` is rejected. -/
theorem open_rejects_unknown_chip (id : Fin 256) (rest : List (Fin 256)) :
    ((∃ e, (backlight_open (logged feed) (id :: rest, [])).1 = Except.error e) ↔
      (id.val ≠ 0x0A ∧ id.val ≠ 0x0B)) ∧
    ((id.val ≠ 0x0A ∧ id.val ≠ 0x0B) →
      backlight_open (logged feed) (id :: rest, []) =
        (Except.error ⟨Message.unknown_chip_id id.val, -1⟩,
          (rest, [PortOp.outb 0xE0 0x55, PortOp.outb 0xE0 0x20, PortOp.inb 0xE1 id.val])) ∧
      ∀ (atoi : String → Int) (progname : String) (args : List String),
        help_requested ((progname :: args).length : Int) (progname :: args) = false →
        (main atoi (logged feed) (id :: rest, []) progname args).status = -1 ∧
        (main atoi (logged feed) (id :: rest, []) progname args).status ≠ 0 ∧
        (main atoi (logged feed) (id :: rest, []) progname args).stdout = [] ∧
        (main atoi (logged feed) (id :: rest, []) progname args).stderr =
          [Message.unknown_chip_id id.val] ∧
        (main atoi (logged feed) (id :: rest, []) progname args).dev =
          (rest, [PortOp.outb 0xE0 0x55, PortOp.outb 0xE0 0x20, PortOp.inb 0xE1 id.val])) ∧
    (∃ e, (backlight_open (logged feed) ([0x00], [])).1 = Except.error e) := by
  have hb : id.val < 256 := id.isLt
  have hopen : (id.val ≠ 0x0A ∧ id.val ≠ 0x0B) →
      backlight_open (logged feed) (id :: rest, []) =
        (Except.error ⟨Message.unknown_chip_id id.val, -1⟩,
          (rest, [PortOp.outb 0xE0 0x55, PortOp.outb 0xE0 0x20, PortOp.inb 0xE1 id.val])) := by
    intro hid
    have h1 : ¬ ((id.val : Int) = 10) := by omega
    have h2 : ¬ ((id.val : Int) = 11) := by omega
    simp [backlight_open, in_idx, outb, inb, logged, feed, uint16_t_INDEX_PORT,
      uint16_t_DATA_PORT, uint8_t_CONF_START, uint8_t_REG_CHIP_ID,
      Nat.mod_eq_of_lt hb, h1, h2]
  refine ⟨⟨?_, ?_⟩, ?_, ?_⟩
  · rintro ⟨e, he⟩
    by_contra hcon
    have hid : (id.val : Int) = 10 ∨ (id.val : Int) = 11 := by omega
    have h3 : ¬ (¬ ((id.val : Int) = 10) ∧ ¬ ((id.val : Int) = 11)) := by omega
    simp [backlight_open, in_idx, outb, inb, logged, feed, uint16_t_INDEX_PORT,
      uint16_t_DATA_PORT, uint8_t_CONF_START, uint8_t_REG_CHIP_ID,
      Nat.mod_eq_of_lt hb, h3] at he
  · intro hid
    exact ⟨_, by rw [hopen hid]⟩
  · intro hid
    refine ⟨hopen hid, ?_⟩
    intro atoi progname args hh
    simp only [main, hh, hopen hid]
    simp
  · exact ⟨⟨Message.unknown_chip_id 0, -1⟩, rfl⟩

theorem open_rejects_unknown_chip_witness :
    backlight_open (logged feed) ([0x00, 0x12, 0x34], []) =
      (Except.error ⟨Message.unknown_chip_id 0, -1⟩,
        ([0x12, 0x34], [PortOp.outb 0xE0 0x55, PortOp.outb 0xE0 0x20, PortOp.inb 0xE1 0])) :=
  ((open_rejects_unknown_chip 0x00 [0x12, 0x34]).2.1 (by decide)).1

/-! ## The traces of `backlight_open`, the accessors and `main` on fed bytes -/

theorem backlight_open_feed_ok (id H L : Fin 256) (rest : List (Fin 256))
    (t : List PortOp) (hid : id.val = 0x0A ∨ id.val = 0x0B) :
    backlight_open (logged feed) (id :: H :: L :: rest, t) =
      (Except.ok ((H.val * 256 + L.val : Nat) : Int),
        (rest, t ++ [PortOp.outb 0xE0 0x55,
          PortOp.outb 0xE0 0x20, PortOp.inb 0xE1 id.val,
          PortOp.outb 0xE0 0x07, PortOp.outb 0xE1 0x09,
          PortOp.outb 0xE0 0x60, PortOp.inb 0xE1 H.val,
          PortOp.outb 0xE0 0x61, PortOp.inb 0xE1 L.val])) := by
  have hb : id.val < 256 := id.isLt
  have hH : H.val < 256 := H.isLt
  have hL : L.val < 256 := L.isLt
  have h3 : ¬ (¬ ((id.val : Int) = 10) ∧ ¬ ((id.val : Int) = 11)) := by omega
  simp [backlight_open, in_idx, out_idx, outb, inb, logged, feed, uint16_t_INDEX_PORT,
    uint16_t_DATA_PORT, uint8_t_CONF_START, uint8_t_REG_CHIP_ID, uint8_t_REG_LOGDN,
    uint8_t_LOGICAL_DEVICE_MAILBOXES, uint8_t_REG_LDN_BASEH, uint8_t_REG_LDN_BASEL,
    Nat.mod_eq_of_lt hb, Nat.mod_eq_of_lt hH, Nat.mod_eq_of_lt hL, h3,
    Nat.shiftLeft_eq]

theorem backlight_get_brightness_feed (h : Int) (b : Fin 256) (rest : List (Fin 256))
    (t : List PortOp) :
    backlight_get_brightness (logged feed) (b :: rest, t) h =
      (((b.val / 2 : Nat) : Int),
        (rest, t ++ [PortOp.outb (uint16_t h) 0x93, PortOp.inb (uint16_t (h + 1)) b.val])) := by
  have hb : b.val < 256 := b.isLt
  simp [backlight_get_brightness, outb, inb, logged, feed, uint8_t_MBX_PWM1,
    Nat.shiftRight_eq_div_pow, Nat.mod_eq_of_lt hb]

theorem backlight_set_brightness_feed (h level : Int) (rest : List (Fin 256))
    (t : List PortOp) :
    backlight_set_brightness (logged feed) (rest, t) h level =
      (rest, t ++ [PortOp.outb (uint16_t (h + 1)) (2 * clamp level 0 63).toNat]) := by
  simp [backlight_set_brightness, outb, logged, feed, uint8_t_shl_clamp]

theorem backlight_close_feed (h : Int) (rest : List (Fin 256)) (t : List PortOp) :
    backlight_close (logged feed) (rest, t) h = (rest, t ++ [PortOp.outb 0xE0 0xAA]) := by
  simp [backlight_close, outb, logged, feed, uint16_t_INDEX_PORT, uint8_t_CONF_END]

theorem uint16_t_base (H L : Fin 256) :
    uint16_t ((H.val * 256 + L.val : Nat) : Int) = H.val * 256 + L.val := by
  have hH : H.val < 256 := H.isLt
  have hL : L.val < 256 := L.isLt
  unfold uint16_t
  omega

theorem uint16_t_base_succ (H L : Fin 256) :
    uint16_t (((H.val * 256 + L.val : Nat) : Int) + 1) = (H.val * 256 + L.val + 1) % 65536 := by
  unfold uint16_t
  omega

/-- C5: with chip id `0x0A` or `0x0B`, `backlight_open` performs exactly the port
sequence write(0xE0,0x55); write(0xE0,0x20), read(0xE1); write(0xE0,0x07),
write(0xE1,0x09); write(0xE0,0x60), read(0xE1)=H; write(0xE0,0x61), read(0xE1)=L,
the high byte being read before the low byte, and returns `H*256 + L`, which
equals `(H<<8) OR L` and lies in `[0, 65535]`. -/
theorem open_sequence (id H L : Fin 256) (rest : List (Fin 256))
    (hid : id.val = 0x0A ∨ id.val = 0x0B) :
    backlight_open (logged feed) (id :: H :: L :: rest, []) =
      (Except.ok ((H.val * 256 + L.val : Nat) : Int),
        (rest, [PortOp.outb 0xE0 0x55,
          PortOp.outb 0xE0 0x20, PortOp.inb 0xE1 id.val,
          PortOp.outb 0xE0 0x07, PortOp.outb 0xE1 0x09,
          PortOp.outb 0xE0 0x60, PortOp.inb 0xE1 H.val,
          PortOp.outb 0xE0 0x61, PortOp.inb 0xE1 L.val])) ∧
    H.val * 256 + L.val = (H.val <<< 8) ||| L.val ∧
    (0 ≤ ((H.val * 256 + L.val : Nat) : Int) ∧
      ((H.val * 256 + L.val : Nat) : Int) ≤ 65535) := by
  have hH : H.val < 256 := H.isLt
  have hL : L.val < 256 := L.isLt
  refine ⟨?_, ?_, ?_⟩
  · simpa using backlight_open_feed_ok id H L rest [] hid
  · have hL8 : L.val < 2 ^ 8 := by omega
    have hor := Nat.mul_add_lt_is_or hL8 H.val
    rw [Nat.shiftLeft_eq, Nat.mul_comm H.val (2 ^ 8), ← hor]
    omega
  · omega

theorem open_sequence_witness :
    backlight_open (logged feed) ([0x0B, 0x04, 0x10, 0x50], []) =
      (Except.ok 0x410,
        ([0x50], [PortOp.outb 0xE0 0x55,
          PortOp.outb 0xE0 0x20, PortOp.inb 0xE1 0x0B,
          PortOp.outb 0xE0 0x07, PortOp.outb 0xE1 0x09,
          PortOp.outb 0xE0 0x60, PortOp.inb 0xE1 0x04,
          PortOp.outb 0xE0 0x61, PortOp.inb 0xE1 0x10])) :=
  (open_sequence 0x0B 0x04 0x10 [0x50] (by decide)).1

/-- C6 (counterexample): on a simulated chip in `NORMAL` mode with chip id `0x0A`
whose logical-device-number register `0x07` holds `0`, `backlight_open` followed by
`backlight_close` leaves the chip in `NORMAL` mode with `0x09` in register `0x07`:
a chip register does not have the value it had before the open. -/
theorem open_close_changes_logdn :
    (backlight_close chip
      (backlight_open chip
        { mode := Mode.NORMAL, index := 0,
          glob := fun r => if r = 0x20 then 0x0A else 0,
          ldev := fun _ _ => 0, port := fun _ => 0 }).2 0).glob 0x07 = 0x09 ∧
    ¬ ((backlight_close chip
      (backlight_open chip
        { mode := Mode.NORMAL, index := 0,
          glob := fun r => if r = 0x20 then 0x0A else 0,
          ldev := fun _ _ => 0, port := fun _ => 0 }).2 0).glob 0x07 =
      (fun r => if r = 0x20 then 0x0A else 0) 0x07) := by
  decide

/-- C6 (amended): for every simulated chip state in `NORMAL` mode with a recognised
chip id, `backlight_open` succeeds with the base address of logical device `0x09`
and `backlight_close` after it leaves the chip in `NORMAL` mode; every register of
every logical device, every port outside the index/data pair and every global
register other than the logical-device-number register `0x07` has the value it had
before the open, and register `0x07` holds `0x09`. -/
theorem open_close_chip (c : Chip) (bl_addr : Int) (hm : c.mode = Mode.NORMAL)
    (hid : c.glob 0x20 % 256 = 0x0A ∨ c.glob 0x20 % 256 = 0x0B) :
    (backlight_open chip c).1 =
      Except.ok (((c.ldev 0x09 0x60 % 256 * 256 + c.ldev 0x09 0x61 % 256 : Nat) : Int)) ∧
    (backlight_close chip (backlight_open chip c).2 bl_addr).mode = Mode.NORMAL ∧
    (backlight_close chip (backlight_open chip c).2 bl_addr).glob 0x07 = 0x09 ∧
    (∀ r, r ≠ 0x07 →
      (backlight_close chip (backlight_open chip c).2 bl_addr).glob r = c.glob r) ∧
    (backlight_close chip (backlight_open chip c).2 bl_addr).ldev = c.ldev ∧
    (backlight_close chip (backlight_open chip c).2 bl_addr).port = c.port := by
  obtain ⟨mode, index, glob, ldev, port⟩ := c
  simp only at hm hid
  subst hm
  have h3 : ¬ (¬ ((glob 32 : Int) % 256 = 10) ∧ ¬ ((glob 32 : Int) % 256 = 11)) := by
    omega
  simp [backlight_open, backlight_close, in_idx, out_idx, outb, inb, chip, Chip.reg,
    Chip.set_reg, uint16_t_INDEX_PORT, uint16_t_DATA_PORT, uint8_t_CONF_START,
    uint8_t_CONF_END, uint8_t_REG_CHIP_ID, uint8_t_REG_LOGDN,
    uint8_t_LOGICAL_DEVICE_MAILBOXES, uint8_t_REG_LDN_BASEH, uint8_t_REG_LDN_BASEL,
    h3, Nat.shiftLeft_eq]
  intro r hr
  simp [hr]

theorem open_close_chip_witness :
    (backlight_close chip
      (backlight_open chip
        { mode := Mode.NORMAL, index := 0,
          glob := fun r => if r = 0x20 then 0x0B else 0x11,
          ldev := fun d r => if d = 0x09 ∧ r = 0x60 then 0x04 else 0x10,
          port := fun _ => 0 }).2 0x410).mode = Mode.NORMAL :=
  (open_close_chip
    { mode := Mode.NORMAL, index := 0,
      glob := fun r => if r = 0x20 then 0x0B else 0x11,
      ldev := fun d r => if d = 0x09 ∧ r = 0x60 then 0x04 else 0x10,
      port := fun _ => 0 } 0x410 rfl (by decide)).2.1

theorem main_feed_no_argument (atoi : String → Int) (progname : String)
    (id H L b : Fin 256) (rest : List (Fin 256))
    (hh : help_requested 1 [progname] = false) (hid : id.val = 0x0A ∨ id.val = 0x0B) :
    main atoi (logged feed) (id :: H :: L :: b :: rest, []) progname [] =
      { status := 0
        stdout := [Message.decimal ((((b.val / 2 : Nat) : Int) + 1).tdiv 8)]
        stderr := []
        dev := (rest, [PortOp.outb 0xE0 0x55,
          PortOp.outb 0xE0 0x20, PortOp.inb 0xE1 id.val,
          PortOp.outb 0xE0 0x07, PortOp.outb 0xE1 0x09,
          PortOp.outb 0xE0 0x60, PortOp.inb 0xE1 H.val,
          PortOp.outb 0xE0 0x61, PortOp.inb 0xE1 L.val,
          PortOp.outb (H.val * 256 + L.val) 0x93,
          PortOp.inb ((H.val * 256 + L.val + 1) % 65536) b.val,
          PortOp.outb 0xE0 0xAA]) } := by
  have hh2 : help_requested (([progname] : List String).length : Int) [progname] = false := hh
  simp only [main, hh2, backlight_open_feed_ok id H L (b :: rest) [] hid,
    backlight_get_brightness_feed, backlight_close_feed, uint16_t_base, uint16_t_base_succ]
  simp

theorem main_feed_one_argument (atoi : String → Int) (progname a : String)
    (id H L b : Fin 256) (rest : List (Fin 256))
    (hh : help_requested 2 [progname, a] = false) (hid : id.val = 0x0A ∨ id.val = 0x0B) :
    main atoi (logged feed) (id :: H :: L :: b :: rest, []) progname [a] =
      { status := 0
        stdout := []
        stderr := []
        dev := (rest, [PortOp.outb 0xE0 0x55,
          PortOp.outb 0xE0 0x20, PortOp.inb 0xE1 id.val,
          PortOp.outb 0xE0 0x07, PortOp.outb 0xE1 0x09,
          PortOp.outb 0xE0 0x60, PortOp.inb 0xE1 H.val,
          PortOp.outb 0xE0 0x61, PortOp.inb 0xE1 L.val,
          PortOp.outb (H.val * 256 + L.val) 0x93,
          PortOp.inb ((H.val * 256 + L.val + 1) % 65536) b.val,
          PortOp.outb ((H.val * 256 + L.val + 1) % 65536)
            (2 * clamp
              (if a = "+" then ((b.val / 2 : Nat) : Int) + 8
               else if a = "-" then ((b.val / 2 : Nat) : Int) - 8
               else int32 (8 * atoi a)) 0 63).toNat,
          PortOp.outb 0xE0 0xAA]) } := by
  have hh2 : help_requested (([progname, a] : List String).length : Int) [progname, a]
      = false := hh
  simp only [main, hh2, backlight_open_feed_ok id H L (b :: rest) [] hid,
    backlight_get_brightness_feed]
  have e1 := uint16_t_base H L
  have e2 := uint16_t_base_succ H L
  push_cast at e1 e2
  by_cases hp : a = "+"
  · simp [hp, backlight_set_brightness_feed, backlight_close_feed, e1, e2]
  · by_cases hn : a = "-"
    · simp [hn, backlight_set_brightness_feed, backlight_close_feed, e1, e2]
    · simp [hp, hn, backlight_set_brightness_feed, backlight_close_feed, e1, e2]

theorem help_requested_args (progname : String) (args : List String)
    (hh : help_requested ((progname :: args).length : Int) (progname :: args) = false) :
    args = [] ∨ ∃ a, args = [a] := by
  match args with
  | [] => exact Or.inl rfl
  | [a] => exact Or.inr ⟨a, rfl⟩
  | a :: b :: r =>
      exfalso
      have hlen : (((progname :: a :: b :: r).length : Nat) : Int) > 2 := by
        simp only [List.length_cons]
        omega
      unfold help_requested at hh
      split at hh
      · exact Bool.noConfusion hh
      · simp only [decide_eq_false_iff_not] at hh
        exact hh hlen

theorem set_value_ne_unlock (L : Int) : ¬ ((2 * clamp L 0 63).toNat = 85) := by
  have hc := clamp_range L
  omega

theorem set_value_ne_lock (L : Int) : ¬ ((2 * clamp L 0 63).toNat = 170) := by
  have hc := clamp_range L
  omega

theorem mode_step_set_value (m : Mode) (p : Nat) (L : Int) :
    mode_step m (PortOp.outb p (2 * clamp L 0 63).toNat) = m := by
  simp [mode_step, set_value_ne_unlock, set_value_ne_lock]

theorem mode_step_select (m : Mode) (p : Nat) :
    mode_step m (PortOp.outb p 0x93) = m := by
  simp [mode_step]

/-- C7: for every argument vector that does not request help, every recognised
chip id and every base address `H*256 + L` the chip reports, the port trace of
`main` starts with the write of the unlock byte `0x55` to port `0xE0`, ends with
the write of the lock byte `0xAA` to port `0xE0`, and contains each of these two
writes exactly once; in the two-state model the chip is in `NORMAL` after the
trace and in `CONFIG` after every proper non-empty prefix of it, so no accessor
write toggles the mode. -/
theorem main_unlock_lock (atoi : String → Int) (progname : String) (args : List String)
    (id H L b : Fin 256) (rest : List (Fin 256))
    (hh : help_requested ((progname :: args).length : Int) (progname :: args) = false)
    (hid : id.val = 0x0A ∨ id.val = 0x0B) :
    (main atoi (logged feed) (id :: H :: L :: b :: rest, []) progname args).dev.2.head? =
      some (PortOp.outb 0xE0 0x55) ∧
    (main atoi (logged feed) (id :: H :: L :: b :: rest, []) progname args).dev.2.getLast? =
      some (PortOp.outb 0xE0 0xAA) ∧
    (main atoi (logged feed) (id :: H :: L :: b :: rest, []) progname args).dev.2.count
      (PortOp.outb 0xE0 0x55) = 1 ∧
    (main atoi (logged feed) (id :: H :: L :: b :: rest, []) progname args).dev.2.count
      (PortOp.outb 0xE0 0xAA) = 1 ∧
    (∀ m, mode_after m
      (main atoi (logged feed) (id :: H :: L :: b :: rest, []) progname args).dev.2 =
        Mode.NORMAL) ∧
    (∀ m k, 0 < k →
      k < (main atoi (logged feed) (id :: H :: L :: b :: rest, []) progname args).dev.2.length →
      mode_after m
        ((main atoi (logged feed) (id :: H :: L :: b :: rest, []) progname args).dev.2.take k) =
        Mode.CONFIG) := by
  rcases help_requested_args progname args hh with harg | ⟨a, harg⟩
  · subst harg
    rw [main_feed_no_argument atoi progname id H L b rest hh hid]
    refine ⟨rfl, rfl, ?_, ?_, ?_, ?_⟩
    · simp [List.count_cons]
    · simp [List.count_cons]
    · intro m
      simp [mode_after, mode_step]
    · intro m k hk0 hk
      simp only [List.length_cons, List.length_nil] at hk
      interval_cases k
      all_goals simp [mode_after, mode_step]
  · subst harg
    rw [main_feed_one_argument atoi progname a id H L b rest hh hid]
    refine ⟨rfl, rfl, ?_, ?_, ?_, ?_⟩
    · simp [List.count_cons, set_value_ne_unlock]
    · simp [List.count_cons, set_value_ne_lock]
    · intro m
      simp [mode_after, mode_step]
    · intro m k hk0 hk
      simp only [List.length_cons, List.length_nil] at hk
      interval_cases k
      all_goals simp [mode_after, mode_step, set_value_ne_unlock, set_value_ne_lock]

theorem main_unlock_lock_witness :
    (main libc_atoi (logged feed) ([0x0A, 0x00, 0xDF, 0x50], []) "bcklght" ["+"]).dev.2.count
      (PortOp.outb 0xE0 0xAA) = 1 :=
  (main_unlock_lock libc_atoi "bcklght" ["+"] 0x0A 0x00 0xDF 0x50 [] (by decide)
    (by decide)).2.2.2.1

theorem help_requested_one (progname : String) (hp : progname ≠ "--help") :
    help_requested 1 [progname] = false := by
  simp [help_requested, hp]

theorem help_requested_two (progname a : String) (hp : progname ≠ "--help")
    (ha : a ≠ "--help") : help_requested 2 [progname, a] = false := by
  simp [help_requested, hp, ha]

theorem int32_of_range (x : Int) (h0 : -2147483648 ≤ x) (h1 : x ≤ 2147483647) :
    int32 x = x := by
  unfold int32
  omega

/-- C9 (counterexample): with the single argument "--help" and a recognised chip,
`main` prints the usage text and performs no port operation, so no level is passed
to `backlight_set_brightness` and nothing is written to port `handle+1`; and with
the argument "268435456" the product `8*atoi(argument)` leaves the range of `int`
and the byte written to port `handle+1` is `0`, not `2*clamp(8*268435456, 0, 63)`,
which is `126`. -/
theorem main_one_argument_fails :
    (main libc_atoi (logged feed) ([0x0A, 0x04, 0x10, 80], []) "bcklght" ["--help"]).dev =
      ([0x0A, 0x04, 0x10, 80], []) ∧
    (main libc_atoi (logged feed) ([0x0A, 0x04, 0x10, 80], []) "bcklght" ["--help"]).stderr =
      [Message.help "bcklght"] ∧
    (main libc_atoi (logged feed) ([0x0A, 0x04, 0x10, 80], []) "bcklght"
      ["268435456"]).dev =
      ([], [PortOp.outb 0xE0 0x55,
        PortOp.outb 0xE0 0x20, PortOp.inb 0xE1 0x0A,
        PortOp.outb 0xE0 0x07, PortOp.outb 0xE1 0x09,
        PortOp.outb 0xE0 0x60, PortOp.inb 0xE1 0x04,
        PortOp.outb 0xE0 0x61, PortOp.inb 0xE1 0x10,
        PortOp.outb 0x410 0x93,
        PortOp.inb 0x411 80,
        PortOp.outb 0x411 0,
        PortOp.outb 0xE0 0xAA]) ∧
    (2 * clamp (8 * libc_atoi "268435456") 0 63).toNat = 126 := by
  decide

/-- C9 (amended): when `main` is invoked with exactly one argument, neither the
program name nor the argument is "--help", and the chip is recognised, the level it
passes to `backlight_set_brightness` is `current+8` for "+", `current-8` for "-"
and otherwise `8*atoi(argument)`, provided that product lies in the range of `int`
(from `-2147483648` to `2147483647`); `current` is the value just returned by
`backlight_get_brightness`, and the byte then written to port `handle+1` is
`2*clamp(level, 0, 63)`.  From current 40, "+" targets 48 and "-" targets 32; "5"
targets 40; from current 63, "+" writes level 63; from current 0, "-" writes
level 0. -/
theorem main_one_argument (atoi : String → Int) (progname a : String)
    (hp : progname ≠ "--help") (ha : a ≠ "--help")
    (hr : a ≠ "+" → a ≠ "-" →
      (-2147483648 ≤ 8 * atoi a ∧ 8 * atoi a ≤ 2147483647)) :
    (∀ (σ : Type) (B : Backend σ) (s s1 : σ) (bl_addr : Int),
      backlight_open B s = (Except.ok bl_addr, s1) →
      (main atoi B s progname [a]).dev =
        backlight_close B
          (backlight_set_brightness B (backlight_get_brightness B s1 bl_addr).2 bl_addr
            (if a = "+" then (backlight_get_brightness B s1 bl_addr).1 + 8
             else if a = "-" then (backlight_get_brightness B s1 bl_addr).1 - 8
             else 8 * atoi a))
          bl_addr) ∧
    (∀ (id H L b : Fin 256) (rest : List (Fin 256)), (id.val = 0x0A ∨ id.val = 0x0B) →
      (main atoi (logged feed) (id :: H :: L :: b :: rest, []) progname [a]).dev =
        (rest, [PortOp.outb 0xE0 0x55,
          PortOp.outb 0xE0 0x20, PortOp.inb 0xE1 id.val,
          PortOp.outb 0xE0 0x07, PortOp.outb 0xE1 0x09,
          PortOp.outb 0xE0 0x60, PortOp.inb 0xE1 H.val,
          PortOp.outb 0xE0 0x61, PortOp.inb 0xE1 L.val,
          PortOp.outb (H.val * 256 + L.val) 0x93,
          PortOp.inb ((H.val * 256 + L.val + 1) % 65536) b.val,
          PortOp.outb ((H.val * 256 + L.val + 1) % 65536)
            (2 * clamp
              (if a = "+" then ((b.val / 2 : Nat) : Int) + 8
               else if a = "-" then ((b.val / 2 : Nat) : Int) - 8
               else 8 * atoi a) 0 63).toNat,
          PortOp.outb 0xE0 0xAA])) ∧
    ((40 : Int) + 8 = 48 ∧ clamp (40 + 8) 0 63 = 48 ∧
      (40 : Int) - 8 = 32 ∧ clamp (40 - 8) 0 63 = 32 ∧
      8 * libc_atoi "5" = 40 ∧ clamp (8 * libc_atoi "5") 0 63 = 40 ∧
      clamp (63 + 8) 0 63 = 63 ∧ clamp (0 - 8) 0 63 = 0) := by
  have hh : help_requested 2 [progname, a] = false := help_requested_two progname a hp ha
  have hh2 : help_requested (([progname, a] : List String).length : Int) [progname, a]
      = false := hh
  refine ⟨?_, ?_, by decide⟩
  · intro σ B s s1 bl_addr hopen
    simp only [main, hh2, hopen]
    by_cases hplus : a = "+"
    · simp [hplus, backlight_close]
    · by_cases hminus : a = "-"
      · simp [hminus, backlight_close]
      · have hw := int32_of_range (8 * atoi a) (hr hplus hminus).1 (hr hplus hminus).2
        simp [hplus, hminus, backlight_close, hw]
  · intro id H L b rest hid
    rw [main_feed_one_argument atoi progname a id H L b rest hh hid]
    by_cases hplus : a = "+"
    · simp [hplus]
    · by_cases hminus : a = "-"
      · simp [hminus]
      · have hw := int32_of_range (8 * atoi a) (hr hplus hminus).1 (hr hplus hminus).2
        simp [hplus, hminus, hw]

theorem main_one_argument_witness :
    (main libc_atoi (logged feed) ([0x0A, 0x04, 0x10, 80], []) "bcklght" ["5"]).dev =
      ([], [PortOp.outb 0xE0 0x55,
        PortOp.outb 0xE0 0x20, PortOp.inb 0xE1 0x0A,
        PortOp.outb 0xE0 0x07, PortOp.outb 0xE1 0x09,
        PortOp.outb 0xE0 0x60, PortOp.inb 0xE1 0x04,
        PortOp.outb 0xE0 0x61, PortOp.inb 0xE1 0x10,
        PortOp.outb 0x410 0x93,
        PortOp.inb 0x411 80,
        PortOp.outb 0x411 80,
        PortOp.outb 0xE0 0xAA]) :=
  (main_one_argument libc_atoi "bcklght" "5" (by decide) (by decide)
    (fun _ _ => by decide)).2.1 0x0A 0x04 0x10 80 [] (by decide)

/-- C10 (counterexample): with chip id `0x0A`, base address `0x00DF` and the byte
`0xFF` on the data port, `main` without arguments prints `16`, which is outside
`[0, 8]`, and its trace contains a write to port `handle+1 = 0xE0`; and when the
program name is "--help", `main` without arguments prints nothing to `stdout`,
writes the usage text and performs no port operation. -/
theorem main_prints_16 :
    (main libc_atoi (logged feed) ([0x0A, 0x00, 0xDF, 0xFF], []) "bcklght" []).stdout =
      [Message.decimal 16] ∧
    ¬ ((16 : Int) ≤ 8) ∧
    PortOp.outb (0xDF + 1) 0xAA ∈
      (main libc_atoi (logged feed) ([0x0A, 0x00, 0xDF, 0xFF], []) "bcklght" []).dev.2 ∧
    (main libc_atoi (logged feed) ([0x0A, 0x04, 0x10, 126], []) "--help" []).stdout = [] ∧
    (main libc_atoi (logged feed) ([0x0A, 0x04, 0x10, 126], []) "--help" []).stderr =
      [Message.help "--help"] ∧
    (main libc_atoi (logged feed) ([0x0A, 0x04, 0x10, 126], []) "--help" []).dev =
      ([0x0A, 0x04, 0x10, 126], []) := by
  decide

/-- C10 (amended): when `main` is invoked with zero arguments, the program name is
not "--help", and the chip is recognised, it prints the integer quotient
`(raw+1)/8`, `raw` being the value returned by `backlight_get_brightness`, and does
not call `backlight_set_brightness`: after the getter it only closes the device, so
its trace has no write to port `handle+1` unless that port is the index port `0xE0`
or the data port `0xE1`.  The printed value lies in `[0, 16]`, and in `[0, 8]`
whenever `raw <= 63`.  Raw 63 prints 8, raw 0 prints 0, raw 32 prints 4. -/
theorem main_no_argument (atoi : String → Int) (progname : String)
    (hp : progname ≠ "--help") :
    (∀ (σ : Type) (B : Backend σ) (s s1 : σ) (bl_addr : Int),
      backlight_open B s = (Except.ok bl_addr, s1) →
      (main atoi B s progname []).stdout =
        [Message.decimal (((backlight_get_brightness B s1 bl_addr).1 + 1).tdiv 8)] ∧
      (main atoi B s progname []).dev =
        backlight_close B (backlight_get_brightness B s1 bl_addr).2 bl_addr) ∧
    (∀ (id H L b : Fin 256) (rest : List (Fin 256)), (id.val = 0x0A ∨ id.val = 0x0B) →
      main atoi (logged feed) (id :: H :: L :: b :: rest, []) progname [] =
        { status := 0
          stdout := [Message.decimal ((((b.val / 2 : Nat) : Int) + 1) / 8)]
          stderr := []
          dev := (rest, [PortOp.outb 0xE0 0x55,
            PortOp.outb 0xE0 0x20, PortOp.inb 0xE1 id.val,
            PortOp.outb 0xE0 0x07, PortOp.outb 0xE1 0x09,
            PortOp.outb 0xE0 0x60, PortOp.inb 0xE1 H.val,
            PortOp.outb 0xE0 0x61, PortOp.inb 0xE1 L.val,
            PortOp.outb (H.val * 256 + L.val) 0x93,
            PortOp.inb ((H.val * 256 + L.val + 1) % 65536) b.val,
            PortOp.outb 0xE0 0xAA]) } ∧
      (0 ≤ (((b.val / 2 : Nat) : Int) + 1) / 8 ∧ (((b.val / 2 : Nat) : Int) + 1) / 8 ≤ 16) ∧
      (((b.val / 2 : Nat) : Int) ≤ 63 → (((b.val / 2 : Nat) : Int) + 1) / 8 ≤ 8) ∧
      ((H.val * 256 + L.val + 1) % 65536 ≠ 0xE0 →
        (H.val * 256 + L.val + 1) % 65536 ≠ 0xE1 →
        ∀ v, PortOp.outb ((H.val * 256 + L.val + 1) % 65536) v ∉
          (main atoi (logged feed) (id :: H :: L :: b :: rest, []) progname []).dev.2)) ∧
    (((63 : Int) + 1).tdiv 8 = 8 ∧ ((0 : Int) + 1).tdiv 8 = 0 ∧ ((32 : Int) + 1).tdiv 8 = 4) := by
  have hh : help_requested 1 [progname] = false := help_requested_one progname hp
  have hh2 : help_requested (([progname] : List String).length : Int) [progname] = false := hh
  refine ⟨?_, ?_, by decide⟩
  · intro σ B s s1 bl_addr hopen
    simp only [main, hh2, hopen]
    simp
  · intro id H L b rest hid
    have hb : b.val < 256 := b.isLt
    have htdiv : (((b.val / 2 : Nat) : Int) + 1).tdiv 8 = (((b.val / 2 : Nat) : Int) + 1) / 8 :=
      Int.tdiv_eq_ediv (by omega) (by omega)
    refine ⟨?_, ⟨?_, ?_⟩, ?_, ?_⟩
    · rw [main_feed_no_argument atoi progname id H L b rest hh hid, htdiv]
    · omega
    · omega
    · intro h63
      omega
    · intro h0 h1 v
      rw [main_feed_no_argument atoi progname id H L b rest hh hid]
      have hne : ¬ ((H.val * 256 + L.val + 1) % 65536 = H.val * 256 + L.val) := by omega
      simp [h0, h1, hne]

theorem main_no_argument_witness :
    (main libc_atoi (logged feed) ([0x0B, 0x04, 0x10, 126], []) "bcklght" []).stdout =
      [Message.decimal 8] :=
  congrArg Run.stdout
    ((main_no_argument libc_atoi "bcklght" (by decide)).2.1 0x0B 0x04 0x10 126 []
      (by decide)).1

end Bcklght
